import Mathlib

/-!
Shallow embedding of NLSR's neighbor-liveness ("hello") protocol,
translated from src/hello-protocol.cpp.

Names are modelled as lists of components.  A component is either a
plain string component (what Name::append(std::string) produces), a
component whose value bytes are the wire encoding of a plain
hierarchical identity (what Name::append(otherName.wireEncode())
produces; the only identities this protocol ever nests are configured
router identities, which are plain names), or a version component
(what Name::appendVersion() produces).

Mutation of the shared adjacency list is modelled by explicit state
passing, and every externally visible side effect (expressing an
interest, putting a data packet, scheduling, signalling a statistics
counter, scheduling an LSA build or routing-table calculation) is
recorded in an ordered effect list.
-/

namespace NLSR

/-- A plain hierarchical identity: a sequence of plain name components. -/
abbrev PlainName := List String

/-- One NDN name component, as used by the hello protocol. -/
inductive Component where
  /-- a generic component holding the given printable string -/
  | str : String → Component
  /-- a generic component whose value bytes wire-encode the given plain identity -/
  | encodedName : PlainName → Component
  /-- a version component (Name::appendVersion) -/
  | version : Nat → Component
deriving DecidableEq, Repr

/-- An NDN name: a list of components. -/
abbrev Name := List Component

/-- A plain identity viewed as a Name (each component a string component). -/
def Name.ofPlain (p : PlainName) : Name := p.map Component.str

/-- Models ndn::name::Component::toUri.  A plain string component prints as
its (printable) characters; the URI of an encoded-name component starts with
the percent-escaped TLV type byte of Name (0x07), and the URI of a version
component starts with the escaped version marker byte (0xFD); neither can be
the literal string of a printable marker such as INFO. -/
def Component.toUri : Component → String
  | .str s => s
  | .encodedName _ => "%07"
  | .version _ => "%FD"

/-- Models ndn::Name::get with a possibly negative index (a negative index
counts from the end); out-of-range access is surfaced as none. -/
def Name.get (n : Name) (i : Int) : Option Component :=
  let j : Int := if i < 0 then (n.length : Int) + i else i
  if j < 0 then none else n.get? j.toNat

/-- Models ndn::Name::getPrefix(-k): the name with its last k components
stripped. -/
def Name.getPrefixMinus (n : Name) (k : Nat) : Name :=
  n.take (n.length - k)

/-- Error raised by TLV block parsing / name decoding
(Component::blockFromValue and Name::wireDecode throw on malformed input). -/
inductive NdnError where
  | tlvError
deriving DecidableEq, Repr

/-- Models neighbor.wireDecode(component.blockFromValue()): succeeds exactly
when the component value bytes are the wire encoding of a name; a plain
string component's printable bytes and a version component's marker bytes
are not a Name TLV, so decoding them throws. -/
def Component.wireDecodeValue : Component → Except NdnError Name
  | .encodedName p => .ok (Name.ofPlain p)
  | _ => .error .tlvError

/-- Modelled from the spec: neighbor liveness status, an enum with the two
values INACTIVE and ACTIVE (adjacent.hpp is outside the provided source). -/
inductive Status where
  | STATUS_INACTIVE
  | STATUS_ACTIVE
deriving DecidableEq, Repr

/-- The integer value of a status, as used by the arithmetic comparison
(oldStatus - newStatus) in onContentValidated. -/
def Status.toInt : Status → Int
  | .STATUS_INACTIVE => 0
  | .STATUS_ACTIVE => 1

/-- Modelled from the spec: one configured adjacency — its identity, its
face id (0 meaning no endpoint assigned), its liveness status and its
timed-out-interest counter. -/
structure Adjacent where
  name : Name
  faceId : Nat
  status : Status
  timedOutInterestCount : Nat
deriving DecidableEq, Repr

/-- Modelled from the spec: the neighbor table, a registry of adjacencies
with unique identities. -/
abbrev AdjacencyList := List Adjacent

namespace AdjacencyList

/-- Modelled from the spec: look up the adjacency with the given identity. -/
def findAdjacent (l : AdjacencyList) (n : Name) : Option Adjacent :=
  l.find? fun a => a.name == n

/-- Modelled from the spec: whether the given identity is a configured
neighbor. -/
def isNeighbor (l : AdjacencyList) (n : Name) : Bool :=
  (l.findAdjacent n).isSome

/-- Update the adjacency with the given identity (identities are unique
keys, so at most one entry matches). -/
def updateNeighbor (l : AdjacencyList) (n : Name) (f : Adjacent → Adjacent) :
    AdjacencyList :=
  l.map fun a => if a.name == n then f a else a

/-- Modelled from the spec: increment the neighbor's timed-out-interest
counter. -/
def incrementTimedOutInterestCount (l : AdjacencyList) (n : Name) :
    AdjacencyList :=
  l.updateNeighbor n fun a =>
    { a with timedOutInterestCount := a.timedOutInterestCount + 1 }

/-- Modelled from the spec: set the neighbor's timed-out-interest counter. -/
def setTimedOutInterestCount (l : AdjacencyList) (n : Name) (c : Nat) :
    AdjacencyList :=
  l.updateNeighbor n fun a => { a with timedOutInterestCount := c }

/-- Modelled from the spec: set the neighbor's status. -/
def setStatusOfNeighbor (l : AdjacencyList) (n : Name) (s : Status) :
    AdjacencyList :=
  l.updateNeighbor n fun a => { a with status := s }

/-- Modelled from the spec: read the neighbor's status.  The spec gives only
the two statuses INACTIVE and ACTIVE, with INACTIVE the initial value, so an
absent identity reads as INACTIVE; the protocol functions below only act on
this value for configured neighbors. -/
def getStatusOfNeighbor (l : AdjacencyList) (n : Name) : Status :=
  ((l.findAdjacent n).map Adjacent.status).getD .STATUS_INACTIVE

/-- Modelled from the spec: read the neighbor's timed-out-interest counter
(0 for an absent identity). -/
def getTimedOutInterestCount (l : AdjacencyList) (n : Name) : Nat :=
  ((l.findAdjacent n).map Adjacent.timedOutInterestCount).getD 0

end AdjacencyList

/-- The statistics counters the hello protocol signals
(Statistics::PacketType). -/
inductive PacketType where
  | SENT_HELLO_INTEREST
  | RCV_HELLO_INTEREST
  | SENT_HELLO_DATA
  | RCV_HELLO_DATA
deriving DecidableEq, Repr

/-- The routing mode (ConfParameter::getHyperbolicState); the code compares
it against HYPERBOLIC_STATE_ON. -/
inductive HyperbolicState where
  | HYPERBOLIC_STATE_OFF
  | HYPERBOLIC_STATE_ON
  | HYPERBOLIC_STATE_DRY_RUN
deriving DecidableEq, Repr

/-- Modelled from the spec: the read-only configuration the hello protocol
consumes (conf-parameter.hpp is outside the provided source).  The router's
own identity is a configured plain hierarchical name. -/
structure ConfParameter where
  routerPrefixName : PlainName
  interestResendTime : Nat
  infoInterestInterval : Nat
  interestRetryNumber : Nat
  hyperbolicState : HyperbolicState
deriving DecidableEq, Repr

/-- One externally visible side effect of the hello protocol, in program
order. -/
inductive Effect where
  /-- m_face.expressInterest of the given name with the given lifetime -/
  | sentInterest (name : Name) (lifetime : Nat)
  /-- hpIncrementSignal for the given statistics counter -/
  | hpIncrementSignal (p : PacketType)
  /-- m_face.put of a signed data packet with the given name -/
  | sentData (name : Name)
  /-- m_lsdb.scheduleAdjLsaBuild -/
  | scheduledAdjLsaBuild
  /-- m_routingTable.scheduleRoutingTableCalculation -/
  | scheduledRoutingTableCalculation
  /-- m_scheduler.schedule of the next sendScheduledInterest pass -/
  | scheduledInterestAfter (seconds : Nat)
deriving DecidableEq, Repr

namespace HelloProtocol

def INFO_COMPONENT : String := "INFO"
def NLSR_COMPONENT : String := "nlsr"

/-- The hello interest name /neighbor/NLSR/INFO/encoded-router built by
sendScheduledInterest, processInterest and processInterestTimedOut. -/
def helloInterestName (neighbor : Name) (router : PlainName) : Name :=
  neighbor ++ [.str NLSR_COMPONENT, .str INFO_COMPONENT, .encodedName router]

/-- HelloProtocol::expressInterest: sends the interest (lifetime in seconds,
MustBeFresh, CanBePrefix, with the content/nack/timeout handlers registered)
and increments SENT_HELLO_INTEREST. -/
def expressInterest (interestName : Name) (seconds : Nat) : List Effect :=
  [.sentInterest interestName seconds, .hpIncrementSignal .SENT_HELLO_INTEREST]

/-- HelloProtocol::scheduleInterest: schedules the next periodic pass. -/
def scheduleInterest (seconds : Nat) : List Effect :=
  [.scheduledInterestAfter seconds]

/-- HelloProtocol::sendScheduledInterest: for every adjacency whose face id
is nonzero, build the hello interest name and express it; then reschedule
the next pass after the configured interval.  The adjacency list is not
mutated, so only the effect list is returned. -/
def sendScheduledInterest (cp : ConfParameter) (adj : AdjacencyList) :
    List Effect :=
  (adj.flatMap fun adjacent =>
    if adjacent.faceId ≠ 0 then
      expressInterest (helloInterestName adjacent.name cp.routerPrefixName)
        cp.interestResendTime
    else []) ++
  scheduleInterest cp.infoInterestInterval

/-- HelloProtocol::processInterest.  Increments RCV_HELLO_INTEREST; returns
early if the component at index -2 is not the INFO marker; decodes the
requester identity from the last component (a decode failure propagates as
an exception, modelled as Except.error); if the requester is a configured
neighbor, sends the signed data (interest name plus a fresh version, the
version number being an input of the model) and increments SENT_HELLO_DATA,
and, when the requester's recorded status is INACTIVE and its face id is
nonzero, additionally expresses our own hello interest towards it.  The C++
guards the findAdjacent dereference with an isNeighbor check; here the two
are fused into one match on findAdjacent, which agrees because isNeighbor
holds exactly when findAdjacent succeeds. -/
def processInterest (cp : ConfParameter) (adj : AdjacencyList)
    (interestName : Name) (version : Nat) :
    Except NdnError (AdjacencyList × List Effect) :=
  let eff0 : List Effect := [.hpIncrementSignal .RCV_HELLO_INTEREST]
  if (Name.get interestName (-2)).map Component.toUri ≠ some INFO_COMPONENT then
    .ok (adj, eff0)
  else
    match Name.get interestName (-1) with
    | none => .error .tlvError
    | some c =>
      match c.wireDecodeValue with
      | .error e => .error e
      | .ok neighbor =>
        match adj.findAdjacent neighbor with
        | none => .ok (adj, eff0)
        | some adjacent =>
          let eff1 := eff0 ++
            [.sentData (interestName ++ [.version version]),
             .hpIncrementSignal .SENT_HELLO_DATA]
          if adjacent.status = .STATUS_INACTIVE ∧ adjacent.faceId ≠ 0 then
            .ok (adj, eff1 ++
              expressInterest (helloInterestName neighbor cp.routerPrefixName)
                cp.interestResendTime)
          else
            .ok (adj, eff1)

/-- HelloProtocol::processInterestTimedOut.  Returns early if the component
at index -2 is not the INFO marker; strips the last 3 components to recover
the neighbor identity; increments that neighbor's timed-out-interest count;
if the count is below the retry limit, re-expresses the hello interest;
else if the neighbor's status is ACTIVE and the count equals the retry
limit, sets the status to INACTIVE and schedules an adjacency LSA build. -/
def processInterestTimedOut (cp : ConfParameter) (adj : AdjacencyList)
    (interestName : Name) : AdjacencyList × List Effect :=
  if (Name.get interestName (-2)).map Component.toUri ≠ some INFO_COMPONENT then
    (adj, [])
  else
    let neighbor := interestName.getPrefixMinus 3
    let adj1 := adj.incrementTimedOutInterestCount neighbor
    let status := adj1.getStatusOfNeighbor neighbor
    let infoIntTimedOutCount := adj1.getTimedOutInterestCount neighbor
    if infoIntTimedOutCount < cp.interestRetryNumber then
      (adj1, expressInterest (helloInterestName neighbor cp.routerPrefixName)
        cp.interestResendTime)
    else if status = .STATUS_ACTIVE ∧
        infoIntTimedOutCount = cp.interestRetryNumber then
      (adj1.setStatusOfNeighbor neighbor .STATUS_INACTIVE,
       [.scheduledAdjLsaBuild])
    else
      (adj1, [])

/-- HelloProtocol::onContentValidated.  If the component at index -3 is the
INFO marker: strip the last 4 components to recover the neighbor identity,
record the old status, set the status to ACTIVE, reset the timed-out count
to 0, read the new status, and when the integer difference of old and new
status is nonzero schedule a routing-table calculation (hyperbolic mode on)
or an adjacency LSA build (otherwise).  RCV_HELLO_DATA is incremented at
the end, on every path. -/
def onContentValidated (cp : ConfParameter) (adj : AdjacencyList)
    (dataName : Name) : AdjacencyList × List Effect :=
  if (Name.get dataName (-3)).map Component.toUri = some INFO_COMPONENT then
    let neighbor := dataName.getPrefixMinus 4
    let oldStatus := adj.getStatusOfNeighbor neighbor
    let adj1 := (adj.setStatusOfNeighbor neighbor .STATUS_ACTIVE).setTimedOutInterestCount neighbor 0
    let newStatus := adj1.getStatusOfNeighbor neighbor
    let eff :=
      if oldStatus.toInt - newStatus.toInt ≠ 0 then
        if cp.hyperbolicState = .HYPERBOLIC_STATE_ON then
          [Effect.scheduledRoutingTableCalculation]
        else
          [Effect.scheduledAdjLsaBuild]
      else []
    (adj1, eff ++ [.hpIncrementSignal .RCV_HELLO_DATA])
  else
    (adj, [.hpIncrementSignal .RCV_HELLO_DATA])

/-- Iterated timeout events: the adjacency list after k successive
processInterestTimedOut calls for the same interest name, together with all
effects they emit, in order. -/
def timeoutEvents (cp : ConfParameter) (adj : AdjacencyList)
    (interestName : Name) : Nat → AdjacencyList × List Effect
  | 0 => (adj, [])
  | k + 1 =>
    let r1 := processInterestTimedOut cp adj interestName
    let r2 := timeoutEvents cp r1.1 interestName k
    (r2.1, r1.2 ++ r2.2)

/-- The names of the interests expressed in an effect list, in order. -/
def probeTargets (effs : List Effect) : List Name :=
  effs.filterMap fun e =>
    match e with
    | .sentInterest nm _ => some nm
    | _ => none

end HelloProtocol

end NLSR

/-! Concrete example inputs used by the witness theorems. -/

namespace NLSR
open HelloProtocol

def nbEx : Name := [Component.str "ndn", Component.str "edu", Component.str "arizona"]

def routerEx : PlainName := ["ndn", "edu", "memphis"]

def cpEx : ConfParameter :=
  { routerPrefixName := routerEx, interestResendTime := 5,
    infoInterestInterval := 60, interestRetryNumber := 3,
    hyperbolicState := .HYPERBOLIC_STATE_OFF }

def cpHyp : ConfParameter :=
  { routerPrefixName := routerEx, interestResendTime := 5,
    infoInterestInterval := 60, interestRetryNumber := 3,
    hyperbolicState := .HYPERBOLIC_STATE_ON }

def cpZero : ConfParameter :=
  { routerPrefixName := routerEx, interestResendTime := 5,
    infoInterestInterval := 60, interestRetryNumber := 0,
    hyperbolicState := .HYPERBOLIC_STATE_OFF }

def adjacentActive : Adjacent :=
  { name := nbEx, faceId := 7, status := .STATUS_ACTIVE,
    timedOutInterestCount := 2 }

def adjActive : AdjacencyList := [adjacentActive]

def adjacentInactive : Adjacent :=
  { name := nbEx, faceId := 7, status := .STATUS_INACTIVE,
    timedOutInterestCount := 4 }

def adjInactive : AdjacencyList := [adjacentInactive]

def adjacentNoFace : Adjacent :=
  { name := [Component.str "ndn", Component.str "edu", Component.str "ucla"],
    faceId := 0, status := .STATUS_INACTIVE, timedOutInterestCount := 0 }

def adjTwo : AdjacencyList := [adjacentActive, adjacentNoFace]

def dnEx : Name := helloInterestName nbEx routerEx ++ [Component.version 9]

def reqEx : PlainName := ["ndn", "site", "routerB"]

def adjacentReq : Adjacent :=
  { name := Name.ofPlain reqEx, faceId := 3, status := .STATUS_INACTIVE,
    timedOutInterestCount := 0 }

def adjReq : AdjacencyList := [adjacentReq]

def pfxEx : Name := Name.ofPlain routerEx ++ [Component.str NLSR_COMPONENT]

def reqUnknown : PlainName := ["com", "nowhere"]

def malformedNameEx : Name := [Component.str "A"]

def shortDataName : Name := [Component.str "B"]

def badProbeName : Name :=
  [Component.str "A", Component.str INFO_COMPONENT, Component.str "junk"]

end NLSR

/-! Helper lemmas about name indexing and the neighbor table, followed by
the claim theorems and their witnesses. -/
namespace NLSR

/-- Reading index -1 of a name with a known last component. -/
theorem Name.get_neg_one_append (xs : Name) (c : Component) :
    Name.get (xs ++ [c]) (-1) = some c := by
  unfold Name.get
  have hlen : (xs ++ [c]).length = xs.length + 1 := by simp
  rw [hlen]
  have hneg : ((-1 : Int) < 0) = True := by simp
  simp only [hneg, if_true]
  have hj : ¬ (((xs.length + 1 : Nat) : Int) + (-1) < 0) := by omega
  rw [if_neg hj]
  have ht : (((xs.length + 1 : Nat) : Int) + (-1)).toNat = xs.length := by omega
  rw [ht, List.get?_eq_getElem?, List.getElem?_append_right (le_refl _)]
  simp

/-- Reading index -2 of a name with two known trailing components. -/
theorem Name.get_neg_two_append (xs : Name) (b c : Component) :
    Name.get (xs ++ [b, c]) (-2) = some b := by
  unfold Name.get
  have hlen : (xs ++ [b, c]).length = xs.length + 2 := by simp
  rw [hlen]
  have hneg : ((-2 : Int) < 0) = True := by simp
  simp only [hneg, if_true]
  have hj : ¬ (((xs.length + 2 : Nat) : Int) + (-2) < 0) := by omega
  rw [if_neg hj]
  have ht : (((xs.length + 2 : Nat) : Int) + (-2)).toNat = xs.length := by omega
  rw [ht, List.get?_eq_getElem?, List.getElem?_append_right (le_refl _)]
  simp

/-- Reading index -3 of a name with three known trailing components. -/
theorem Name.get_neg_three_append (xs : Name) (b c d : Component) :
    Name.get (xs ++ [b, c, d]) (-3) = some b := by
  unfold Name.get
  have hlen : (xs ++ [b, c, d]).length = xs.length + 3 := by simp
  rw [hlen]
  have hneg : ((-3 : Int) < 0) = True := by simp
  simp only [hneg, if_true]
  have hj : ¬ (((xs.length + 3 : Nat) : Int) + (-3) < 0) := by omega
  rw [if_neg hj]
  have ht : (((xs.length + 3 : Nat) : Int) + (-3)).toNat = xs.length := by omega
  rw [ht, List.get?_eq_getElem?, List.getElem?_append_right (le_refl _)]
  simp

/-- Stripping k trailing components from a name that ends in k known
components recovers the front. -/
theorem Name.getPrefixMinus_append (xs ys : Name) :
    (xs ++ ys).getPrefixMinus ys.length = xs := by
  unfold Name.getPrefixMinus
  have h : (xs ++ ys).length - ys.length = xs.length := by simp
  rw [h]
  simp

end NLSR

namespace NLSR

open HelloProtocol

/-- The hello interest name has the INFO marker at index -2. -/
theorem helloInterestName_get_neg_two (nb : Name) (r : PlainName) :
    Name.get (helloInterestName nb r) (-2) = some (.str INFO_COMPONENT) := by
  have h : helloInterestName nb r
      = (nb ++ [Component.str NLSR_COMPONENT]) ++
        [Component.str INFO_COMPONENT, Component.encodedName r] := by
    simp [helloInterestName]
  rw [h, Name.get_neg_two_append]

/-- The hello interest name carries the encoded router identity last. -/
theorem helloInterestName_get_neg_one (nb : Name) (r : PlainName) :
    Name.get (helloInterestName nb r) (-1) = some (.encodedName r) := by
  have h : helloInterestName nb r
      = (nb ++ [Component.str NLSR_COMPONENT, Component.str INFO_COMPONENT]) ++
        [Component.encodedName r] := by
    simp [helloInterestName]
  rw [h, Name.get_neg_one_append]

/-- Stripping the last 3 components of a hello interest name recovers the
neighbor identity. -/
theorem helloInterestName_getPrefixMinus (nb : Name) (r : PlainName) :
    (helloInterestName nb r).getPrefixMinus 3 = nb :=
  Name.getPrefixMinus_append nb _

/-- A versioned hello response name has the INFO marker at index -3. -/
theorem helloDataName_get_neg_three (nb : Name) (r : PlainName) (v : Nat) :
    Name.get (helloInterestName nb r ++ [Component.version v]) (-3)
      = some (.str INFO_COMPONENT) := by
  have h : helloInterestName nb r ++ [Component.version v]
      = (nb ++ [Component.str NLSR_COMPONENT]) ++
        [Component.str INFO_COMPONENT, Component.encodedName r,
         Component.version v] := by
    simp [helloInterestName]
  rw [h, Name.get_neg_three_append]

/-- Stripping the last 4 components of a versioned hello response name
recovers the neighbor identity. -/
theorem helloDataName_getPrefixMinus (nb : Name) (r : PlainName) (v : Nat) :
    (helloInterestName nb r ++ [Component.version v]).getPrefixMinus 4 = nb := by
  have h : helloInterestName nb r ++ [Component.version v]
      = nb ++ [Component.str NLSR_COMPONENT, Component.str INFO_COMPONENT,
               Component.encodedName r, Component.version v] := by
    simp [helloInterestName]
  rw [h]
  exact Name.getPrefixMinus_append nb _

end NLSR

namespace NLSR
namespace AdjacencyList

/-- Updating a neighbor with a name-preserving function commutes with
looking that neighbor up. -/
theorem findAdjacent_updateNeighbor (l : AdjacencyList) (n : Name)
    (f : Adjacent → Adjacent) (hf : ∀ a, (f a).name = a.name) :
    (l.updateNeighbor n f).findAdjacent n = (l.findAdjacent n).map f := by
  induction l with
  | nil => rfl
  | cons a l ih =>
    by_cases h : a.name = n
    · have hbeq : (a.name == n) = true := by simp [h]
      simp only [updateNeighbor, List.map_cons, hbeq, if_true, findAdjacent]
      rw [List.find?_cons_of_pos _ (by simp [hf, h]),
          List.find?_cons_of_pos _ (by simp [h])]
      rfl
    · have hbeq : ¬ ((a.name == n) = true) := by simp [h]
      simp only [updateNeighbor, List.map_cons, if_neg hbeq, findAdjacent]
      rw [List.find?_cons_of_neg _ (by simp [h]),
          List.find?_cons_of_neg _ (by simp [h])]
      exact ih

/-- incrementTimedOutInterestCount through findAdjacent. -/
theorem findAdjacent_increment (l : AdjacencyList) (n : Name) :
    (l.incrementTimedOutInterestCount n).findAdjacent n
      = (l.findAdjacent n).map
          (fun a => { a with timedOutInterestCount := a.timedOutInterestCount + 1 }) :=
  findAdjacent_updateNeighbor l n _ (fun _ => rfl)

/-- setStatusOfNeighbor through findAdjacent. -/
theorem findAdjacent_setStatus (l : AdjacencyList) (n : Name) (s : Status) :
    (l.setStatusOfNeighbor n s).findAdjacent n
      = (l.findAdjacent n).map (fun a => { a with status := s }) :=
  findAdjacent_updateNeighbor l n _ (fun _ => rfl)

/-- setTimedOutInterestCount through findAdjacent. -/
theorem findAdjacent_setCount (l : AdjacencyList) (n : Name) (c : Nat) :
    (l.setTimedOutInterestCount n c).findAdjacent n
      = (l.findAdjacent n).map (fun a => { a with timedOutInterestCount := c }) :=
  findAdjacent_updateNeighbor l n _ (fun _ => rfl)

end AdjacencyList
end NLSR

namespace NLSR
namespace HelloProtocol

/-- Status and count reads through a successful lookup. -/
theorem getStatus_of_findAdjacent {l : AdjacencyList} {n : Name} {a : Adjacent}
    (h : l.findAdjacent n = some a) : l.getStatusOfNeighbor n = a.status := by
  unfold AdjacencyList.getStatusOfNeighbor
  rw [h]
  rfl

theorem getCount_of_findAdjacent {l : AdjacencyList} {n : Name} {a : Adjacent}
    (h : l.findAdjacent n = some a) :
    l.getTimedOutInterestCount n = a.timedOutInterestCount := by
  unfold AdjacencyList.getTimedOutInterestCount
  rw [h]
  rfl

/-- One timed-out hello interest for a configured neighbor, fully unfolded:
the count is incremented, then exactly one of retry, down-transition or
no-op happens according to the incremented count and the status. -/
theorem processInterestTimedOut_found (cp : ConfParameter)
    (adj : AdjacencyList) (nb : Name) (a : Adjacent)
    (h : adj.findAdjacent nb = some a) :
    processInterestTimedOut cp adj (helloInterestName nb cp.routerPrefixName)
      = if a.timedOutInterestCount + 1 < cp.interestRetryNumber then
          (adj.incrementTimedOutInterestCount nb,
           expressInterest (helloInterestName nb cp.routerPrefixName)
             cp.interestResendTime)
        else if a.status = .STATUS_ACTIVE ∧
            a.timedOutInterestCount + 1 = cp.interestRetryNumber then
          ((adj.incrementTimedOutInterestCount nb).setStatusOfNeighbor nb
             .STATUS_INACTIVE,
           [.scheduledAdjLsaBuild])
        else
          (adj.incrementTimedOutInterestCount nb, []) := by
  have hfind : (adj.incrementTimedOutInterestCount nb).findAdjacent nb
      = some { a with timedOutInterestCount := a.timedOutInterestCount + 1 } := by
    rw [AdjacencyList.findAdjacent_increment, h]
    rfl
  unfold processInterestTimedOut
  rw [if_neg (by rw [helloInterestName_get_neg_two]; simp [Component.toUri])]
  simp only [helloInterestName_getPrefixMinus,
    getStatus_of_findAdjacent hfind, getCount_of_findAdjacent hfind]

end HelloProtocol
end NLSR

namespace NLSR
namespace HelloProtocol

/-- Once a neighbor is INACTIVE with its count at or above the retry limit,
a further timed-out hello interest only increments the count: no retry is
expressed, no status is written, no build is scheduled. -/
theorem processInterestTimedOut_saturated (cp : ConfParameter)
    (adj : AdjacencyList) (nb : Name) (a : Adjacent)
    (h : adj.findAdjacent nb = some a)
    (hst : a.status = .STATUS_INACTIVE)
    (hge : cp.interestRetryNumber ≤ a.timedOutInterestCount) :
    processInterestTimedOut cp adj (helloInterestName nb cp.routerPrefixName)
      = (adj.incrementTimedOutInterestCount nb, []) := by
  rw [processInterestTimedOut_found cp adj nb a h]
  rw [if_neg (by omega)]
  rw [if_neg (by rw [hst]; simp)]

/-- Iterating timed-out hello interests from a saturated INACTIVE state
emits no effects at all and leaves the neighbor INACTIVE with its count at
or above the retry limit. -/
theorem timeoutEvents_saturated (cp : ConfParameter) (nb : Name) :
    ∀ (k : Nat) (adj : AdjacencyList) (a : Adjacent),
      adj.findAdjacent nb = some a →
      a.status = .STATUS_INACTIVE →
      cp.interestRetryNumber ≤ a.timedOutInterestCount →
      (timeoutEvents cp adj (helloInterestName nb cp.routerPrefixName) k).2 = [] ∧
      ∃ b, (timeoutEvents cp adj (helloInterestName nb cp.routerPrefixName) k).1.findAdjacent nb
            = some b ∧
        b.status = .STATUS_INACTIVE ∧
        cp.interestRetryNumber ≤ b.timedOutInterestCount := by
  intro k
  induction k with
  | zero =>
    intro adj a h hst hge
    exact ⟨rfl, a, h, hst, hge⟩
  | succ k ih =>
    intro adj a h hst hge
    have hstep := processInterestTimedOut_saturated cp adj nb a h hst hge
    have hfind : (adj.incrementTimedOutInterestCount nb).findAdjacent nb
        = some { a with timedOutInterestCount := a.timedOutInterestCount + 1 } := by
      rw [AdjacencyList.findAdjacent_increment, h]
      rfl
    have hrec := ih (adj.incrementTimedOutInterestCount nb)
      { a with timedOutInterestCount := a.timedOutInterestCount + 1 }
      hfind hst (by simp; omega)
    unfold timeoutEvents
    rw [hstep]
    exact ⟨by simp [hrec.1], hrec.2⟩

end HelloProtocol
end NLSR

namespace NLSR
open HelloProtocol

/-- C1: for a neighbor whose status is ACTIVE, a probe timeout that raises
its timeout count to exactly the configured retry limit sets the status to
INACTIVE and schedules exactly one adjacency LSA build — the sole effect of
that call, emitted for every configuration, in particular regardless of the
routing-mode flag (cp, and with it the hyperbolic state, is arbitrary);
after this transition any number k of further timeouts for that neighbor
leaves the status INACTIVE and emits no effect at all (no retry, no status
write, no further build). -/
theorem c1_active_reaching_limit_transitions_once (cp : ConfParameter)
    (adj : AdjacencyList) (nb : Name) (a : Adjacent) (k : Nat)
    (h : adj.findAdjacent nb = some a)
    (hact : a.status = .STATUS_ACTIVE)
    (hcnt : a.timedOutInterestCount + 1 = cp.interestRetryNumber) :
    (processInterestTimedOut cp adj (helloInterestName nb cp.routerPrefixName)).2
      = [.scheduledAdjLsaBuild] ∧
    (processInterestTimedOut cp adj
        (helloInterestName nb cp.routerPrefixName)).1.getStatusOfNeighbor nb
      = .STATUS_INACTIVE ∧
    (timeoutEvents cp
        (processInterestTimedOut cp adj (helloInterestName nb cp.routerPrefixName)).1
        (helloInterestName nb cp.routerPrefixName) k).2 = [] ∧
    (timeoutEvents cp
        (processInterestTimedOut cp adj (helloInterestName nb cp.routerPrefixName)).1
        (helloInterestName nb cp.routerPrefixName) k).1.getStatusOfNeighbor nb
      = .STATUS_INACTIVE := by
  have hstep : processInterestTimedOut cp adj
      (helloInterestName nb cp.routerPrefixName)
      = ((adj.incrementTimedOutInterestCount nb).setStatusOfNeighbor nb
           .STATUS_INACTIVE, [.scheduledAdjLsaBuild]) := by
    rw [processInterestTimedOut_found cp adj nb a h]
    rw [if_neg (by omega)]
    rw [if_pos ⟨hact, hcnt⟩]
  have hfind2 : ((adj.incrementTimedOutInterestCount nb).setStatusOfNeighbor nb
      .STATUS_INACTIVE).findAdjacent nb
      = some { a with timedOutInterestCount := a.timedOutInterestCount + 1,
                      status := .STATUS_INACTIVE } := by
    rw [AdjacencyList.findAdjacent_setStatus,
        AdjacencyList.findAdjacent_increment, h]
    rfl
  have hsat := timeoutEvents_saturated cp nb k
    ((adj.incrementTimedOutInterestCount nb).setStatusOfNeighbor nb
      .STATUS_INACTIVE)
    { a with timedOutInterestCount := a.timedOutInterestCount + 1,
             status := .STATUS_INACTIVE }
    hfind2 rfl (by simp; omega)
  refine ⟨by rw [hstep], ?_, ?_, ?_⟩
  · rw [hstep]
    exact getStatus_of_findAdjacent hfind2
  · rw [hstep]
    exact hsat.1
  · obtain ⟨b, hb, hbst, _⟩ := hsat.2
    rw [hstep]
    exact (getStatus_of_findAdjacent hb).trans hbst
end NLSR
namespace NLSR
namespace HelloProtocol

/-- A validated response whose name carries the INFO marker at index -3,
for a configured neighbor, fully unfolded: the neighbor is set ACTIVE with
count 0, and a single mode-dependent trigger fires exactly when the old
status was INACTIVE, followed by the RCV_HELLO_DATA increment. -/
theorem onContentValidated_found (cp : ConfParameter) (adj : AdjacencyList)
    (dn : Name) (a : Adjacent)
    (hm : (Name.get dn (-3)).map Component.toUri = some INFO_COMPONENT)
    (h : adj.findAdjacent (dn.getPrefixMinus 4) = some a) :
    onContentValidated cp adj dn
      = ((adj.setStatusOfNeighbor (dn.getPrefixMinus 4)
            .STATUS_ACTIVE).setTimedOutInterestCount (dn.getPrefixMinus 4) 0,
         (if a.status = .STATUS_INACTIVE then
            if cp.hyperbolicState = .HYPERBOLIC_STATE_ON then
              [Effect.scheduledRoutingTableCalculation]
            else
              [Effect.scheduledAdjLsaBuild]
          else []) ++ [Effect.hpIncrementSignal .RCV_HELLO_DATA]) := by
  have hset : ((adj.setStatusOfNeighbor (dn.getPrefixMinus 4)
        .STATUS_ACTIVE).setTimedOutInterestCount (dn.getPrefixMinus 4)
        0).findAdjacent (dn.getPrefixMinus 4)
      = some { a with status := .STATUS_ACTIVE, timedOutInterestCount := 0 } := by
    rw [AdjacencyList.findAdjacent_setCount,
        AdjacencyList.findAdjacent_setStatus, h]
    rfl
  unfold onContentValidated
  rw [if_pos hm]
  simp only [getStatus_of_findAdjacent h, getStatus_of_findAdjacent hset]
  cases a.status <;> simp [Status.toInt]

end HelloProtocol
end NLSR

namespace NLSR
open HelloProtocol

/-- C2: a validated response whose name carries the INFO marker at index -3
sets the decoded neighbor's status to ACTIVE and resets its timeout count
to 0, with no hypothesis on the neighbor's previous status (previously
INACTIVE or already ACTIVE alike), and applying the same validated response
again leaves status ACTIVE and count 0 — the operation is idempotent on
status and timeout count. -/
theorem c2_validated_response_sets_active_resets_count (cp : ConfParameter)
    (adj : AdjacencyList) (dn : Name) (a : Adjacent)
    (hm : (Name.get dn (-3)).map Component.toUri = some INFO_COMPONENT)
    (h : adj.findAdjacent (dn.getPrefixMinus 4) = some a) :
    (onContentValidated cp adj dn).1.getStatusOfNeighbor (dn.getPrefixMinus 4)
      = .STATUS_ACTIVE ∧
    (onContentValidated cp adj dn).1.getTimedOutInterestCount (dn.getPrefixMinus 4)
      = 0 ∧
    (onContentValidated cp (onContentValidated cp adj dn).1 dn).1.getStatusOfNeighbor
        (dn.getPrefixMinus 4) = .STATUS_ACTIVE ∧
    (onContentValidated cp (onContentValidated cp adj dn).1 dn).1.getTimedOutInterestCount
        (dn.getPrefixMinus 4) = 0 := by
  have hset : ((adj.setStatusOfNeighbor (dn.getPrefixMinus 4)
        .STATUS_ACTIVE).setTimedOutInterestCount (dn.getPrefixMinus 4)
        0).findAdjacent (dn.getPrefixMinus 4)
      = some { a with status := .STATUS_ACTIVE, timedOutInterestCount := 0 } := by
    rw [AdjacencyList.findAdjacent_setCount,
        AdjacencyList.findAdjacent_setStatus, h]
    rfl
  have h1 := onContentValidated_found cp adj dn a hm h
  have h2 := onContentValidated_found cp
    ((adj.setStatusOfNeighbor (dn.getPrefixMinus 4)
        .STATUS_ACTIVE).setTimedOutInterestCount (dn.getPrefixMinus 4) 0)
    dn { a with status := .STATUS_ACTIVE, timedOutInterestCount := 0 } hm hset
  have hset2 : ((((adj.setStatusOfNeighbor (dn.getPrefixMinus 4)
        .STATUS_ACTIVE).setTimedOutInterestCount (dn.getPrefixMinus 4)
        0).setStatusOfNeighbor (dn.getPrefixMinus 4)
        .STATUS_ACTIVE).setTimedOutInterestCount (dn.getPrefixMinus 4)
        0).findAdjacent (dn.getPrefixMinus 4)
      = some { a with status := .STATUS_ACTIVE, timedOutInterestCount := 0 } := by
    rw [AdjacencyList.findAdjacent_setCount,
        AdjacencyList.findAdjacent_setStatus, hset]
    rfl
  rw [h1]
  refine ⟨getStatus_of_findAdjacent hset, getCount_of_findAdjacent hset, ?_, ?_⟩
  · rw [h2]
    exact getStatus_of_findAdjacent hset2
  · rw [h2]
    exact getCount_of_findAdjacent hset2

/-- C3: in onContentValidated (marker present, neighbor configured) the
downstream trigger fires exactly when the neighbor's status actually
changes, which happens exactly when it was INACTIVE before the response:
then one routing-table calculation is scheduled if hyperbolic routing is
on, otherwise one adjacency LSA build; when the neighbor was already
ACTIVE, the only effect is the RCV_HELLO_DATA increment. -/
theorem c3_trigger_fires_iff_status_changed (cp : ConfParameter)
    (adj : AdjacencyList) (dn : Name) (a : Adjacent)
    (hm : (Name.get dn (-3)).map Component.toUri = some INFO_COMPONENT)
    (h : adj.findAdjacent (dn.getPrefixMinus 4) = some a) :
    ((onContentValidated cp adj dn).2
      = (if a.status = .STATUS_INACTIVE then
           if cp.hyperbolicState = .HYPERBOLIC_STATE_ON then
             [Effect.scheduledRoutingTableCalculation]
           else
             [Effect.scheduledAdjLsaBuild]
         else []) ++ [Effect.hpIncrementSignal .RCV_HELLO_DATA]) ∧
    (a.status = .STATUS_INACTIVE ↔
      adj.getStatusOfNeighbor (dn.getPrefixMinus 4)
        ≠ (onContentValidated cp adj dn).1.getStatusOfNeighbor (dn.getPrefixMinus 4)) := by
  have hset : ((adj.setStatusOfNeighbor (dn.getPrefixMinus 4)
        .STATUS_ACTIVE).setTimedOutInterestCount (dn.getPrefixMinus 4)
        0).findAdjacent (dn.getPrefixMinus 4)
      = some { a with status := .STATUS_ACTIVE, timedOutInterestCount := 0 } := by
    rw [AdjacencyList.findAdjacent_setCount,
        AdjacencyList.findAdjacent_setStatus, h]
    rfl
  rw [onContentValidated_found cp adj dn a hm h]
  refine ⟨rfl, ?_⟩
  rw [getStatus_of_findAdjacent h, getStatus_of_findAdjacent hset]
  cases a.status <;> simp

end NLSR

namespace NLSR
open HelloProtocol

/-- C4 (amended part): a probe or timed-out probe whose name does not carry
the INFO marker at index -2 is silently ignored by both handlers: no error,
no change to the neighbor table, no data sent, no interest expressed — for
processInterest the only effect is the already-fired RCV_HELLO_INTEREST
increment, and processInterestTimedOut emits nothing. -/
theorem c4_marker_mismatch_silently_ignored (cp : ConfParameter)
    (adj : AdjacencyList) (name : Name) (v : Nat)
    (hp : (Name.get name (-2)).map Component.toUri ≠ some INFO_COMPONENT) :
    processInterest cp adj name v
      = .ok (adj, [.hpIncrementSignal .RCV_HELLO_INTEREST]) ∧
    processInterestTimedOut cp adj name = (adj, []) := by
  constructor
  · unfold processInterest
    rw [if_pos hp]
  · unfold processInterestTimedOut
    rw [if_pos hp]

end NLSR

namespace NLSR
namespace HelloProtocol

/-- A well-formed probe name (INFO marker at index -2, requester identity
wire-encoded in the last component), fully unfolded through processInterest
for a configured requester: the receive counter fires, the versioned signed
data is sent, and the reciprocal probe is expressed exactly when the
requester's recorded status is INACTIVE and its face id is nonzero. -/
theorem processInterest_found (cp : ConfParameter) (adj : AdjacencyList)
    (pfx : Name) (req : PlainName) (v : Nat) (a : Adjacent)
    (h : adj.findAdjacent (Name.ofPlain req) = some a) :
    processInterest cp adj
        (pfx ++ [Component.str INFO_COMPONENT, Component.encodedName req]) v
      = .ok (adj,
          [.hpIncrementSignal .RCV_HELLO_INTEREST,
           .sentData ((pfx ++ [Component.str INFO_COMPONENT,
              Component.encodedName req]) ++ [Component.version v]),
           .hpIncrementSignal .SENT_HELLO_DATA] ++
          (if a.status = .STATUS_INACTIVE ∧ a.faceId ≠ 0 then
             expressInterest
               (helloInterestName (Name.ofPlain req) cp.routerPrefixName)
               cp.interestResendTime
           else [])) := by
  have hm2 : Name.get
      (pfx ++ [Component.str INFO_COMPONENT, Component.encodedName req]) (-2)
      = some (Component.str INFO_COMPONENT) :=
    Name.get_neg_two_append pfx _ _
  have hm1 : Name.get
      (pfx ++ [Component.str INFO_COMPONENT, Component.encodedName req]) (-1)
      = some (Component.encodedName req) := by
    have hsplit : pfx ++ [Component.str INFO_COMPONENT, Component.encodedName req]
        = (pfx ++ [Component.str INFO_COMPONENT]) ++ [Component.encodedName req] := by
      simp
    rw [hsplit, Name.get_neg_one_append]
  unfold processInterest
  rw [if_neg (by rw [hm2]; simp [Component.toUri])]
  rw [hm1]
  show (match (Component.encodedName req).wireDecodeValue with
    | .error e => Except.error e
    | .ok neighbor => _) = _
  rw [show (Component.encodedName req).wireDecodeValue
        = Except.ok (Name.ofPlain req) from rfl]
  show (match adj.findAdjacent (Name.ofPlain req) with
    | none => _ | some adjacent => _) = _
  rw [h]
  by_cases hc : a.status = .STATUS_INACTIVE ∧ a.faceId ≠ 0
  · simp only [if_pos hc]
    rfl
  · simp only [if_neg hc]
    rfl

/-- A well-formed probe from an identity that is not a configured neighbor,
through processInterest: only the receive counter fires. -/
theorem processInterest_unknown (cp : ConfParameter) (adj : AdjacencyList)
    (pfx : Name) (req : PlainName) (v : Nat)
    (h : adj.findAdjacent (Name.ofPlain req) = none) :
    processInterest cp adj
        (pfx ++ [Component.str INFO_COMPONENT, Component.encodedName req]) v
      = .ok (adj, [.hpIncrementSignal .RCV_HELLO_INTEREST]) := by
  have hm2 : Name.get
      (pfx ++ [Component.str INFO_COMPONENT, Component.encodedName req]) (-2)
      = some (Component.str INFO_COMPONENT) :=
    Name.get_neg_two_append pfx _ _
  have hm1 : Name.get
      (pfx ++ [Component.str INFO_COMPONENT, Component.encodedName req]) (-1)
      = some (Component.encodedName req) := by
    have hsplit : pfx ++ [Component.str INFO_COMPONENT, Component.encodedName req]
        = (pfx ++ [Component.str INFO_COMPONENT]) ++ [Component.encodedName req] := by
      simp
    rw [hsplit, Name.get_neg_one_append]
  unfold processInterest
  rw [if_neg (by rw [hm2]; simp [Component.toUri])]
  rw [hm1]
  show (match (Component.encodedName req).wireDecodeValue with
    | .error e => Except.error e
    | .ok neighbor => _) = _
  rw [show (Component.encodedName req).wireDecodeValue
        = Except.ok (Name.ofPlain req) from rfl]
  show (match adj.findAdjacent (Name.ofPlain req) with
    | none => _ | some adjacent => _) = _
  rw [h]

end HelloProtocol
end NLSR

namespace NLSR
open HelloProtocol

/-- C6: a well-formed probe (INFO marker at index -2, requester identity in
the last component) from a configured neighbor always gets a signed,
versioned response, and the reciprocal probe towards the requester is
expressed exactly when the requester's recorded status is INACTIVE and its
face id is nonzero (for an ACTIVE requester, or one without a face, the
trailing conditional block is empty: response only). -/
theorem c6_incoming_probe_response_and_reciprocal_probe (cp : ConfParameter)
    (adj : AdjacencyList) (pfx : Name) (req : PlainName) (v : Nat)
    (a : Adjacent)
    (h : adj.findAdjacent (Name.ofPlain req) = some a) :
    processInterest cp adj
        (pfx ++ [Component.str INFO_COMPONENT, Component.encodedName req]) v
      = .ok (adj,
          [.hpIncrementSignal .RCV_HELLO_INTEREST,
           .sentData ((pfx ++ [Component.str INFO_COMPONENT,
              Component.encodedName req]) ++ [Component.version v]),
           .hpIncrementSignal .SENT_HELLO_DATA] ++
          (if a.status = .STATUS_INACTIVE ∧ a.faceId ≠ 0 then
             [.sentInterest
                (helloInterestName (Name.ofPlain req) cp.routerPrefixName)
                cp.interestResendTime,
              .hpIncrementSignal .SENT_HELLO_INTEREST]
           else [])) := by
  rw [processInterest_found cp adj pfx req v a h]
  rfl

/-- C7: a well-formed probe whose decoded requester identity is not a
configured neighbor produces no response, no probe and no table change;
the only side effect is the RCV_HELLO_INTEREST increment, which fires
first, before the recognition check. -/
theorem c7_unknown_requester_ignored_after_counter (cp : ConfParameter)
    (adj : AdjacencyList) (pfx : Name) (req : PlainName) (v : Nat)
    (h : adj.isNeighbor (Name.ofPlain req) = false) :
    processInterest cp adj
        (pfx ++ [Component.str INFO_COMPONENT, Component.encodedName req]) v
      = .ok (adj, [.hpIncrementSignal .RCV_HELLO_INTEREST]) := by
  apply processInterest_unknown
  unfold AdjacencyList.isNeighbor at h
  exact Option.not_isSome_iff_eq_none.mp (by rw [h]; simp)

/-- C9: with a configured retry limit of 0, a probe timeout increments the
neighbor's count to at least 1, so neither the retry branch nor the
down-transition branch can fire: no interest is re-expressed, nothing is
scheduled, and the status is left exactly as it was. -/
theorem c9_retry_limit_zero_never_declares_down (cp : ConfParameter)
    (adj : AdjacencyList) (nb : Name) (a : Adjacent)
    (hlim : cp.interestRetryNumber = 0)
    (h : adj.findAdjacent nb = some a) :
    processInterestTimedOut cp adj (helloInterestName nb cp.routerPrefixName)
      = (adj.incrementTimedOutInterestCount nb, []) ∧
    (adj.incrementTimedOutInterestCount nb).getTimedOutInterestCount nb
      = a.timedOutInterestCount + 1 ∧
    1 ≤ (adj.incrementTimedOutInterestCount nb).getTimedOutInterestCount nb ∧
    (adj.incrementTimedOutInterestCount nb).getStatusOfNeighbor nb = a.status := by
  have hfind : (adj.incrementTimedOutInterestCount nb).findAdjacent nb
      = some { a with timedOutInterestCount := a.timedOutInterestCount + 1 } := by
    rw [AdjacencyList.findAdjacent_increment, h]
    rfl
  refine ⟨?_, ?_, ?_, ?_⟩
  · rw [processInterestTimedOut_found cp adj nb a h]
    rw [if_neg (by rw [hlim]; omega)]
    rw [if_neg (by rw [hlim]; rintro ⟨-, hc⟩; omega)]
  · rw [getCount_of_findAdjacent hfind]
  · rw [getCount_of_findAdjacent hfind]
    exact Nat.succ_le_succ (Nat.zero_le _)
  · rw [getStatus_of_findAdjacent hfind]

/-- C8: round-trips of the probe/response name encoding.  Building a probe
name from any neighbor identity and stripping its last 3 components (the
timeout path) recovers the identity; appending a version and stripping the
last 4 components (the validated-response path) recovers it too; and the
requester identity wire-encoded into the last probe-name component decodes
back to exactly the original requester identity. -/
theorem c8_probe_name_roundtrip (nb : Name) (r req : PlainName) (v : Nat) :
    (helloInterestName nb r).getPrefixMinus 3 = nb ∧
    (helloInterestName nb r ++ [Component.version v]).getPrefixMinus 4 = nb ∧
    Name.get (helloInterestName nb req) (-1) = some (Component.encodedName req) ∧
    (Component.encodedName req).wireDecodeValue = Except.ok (Name.ofPlain req) :=
  ⟨helloInterestName_getPrefixMinus nb r,
   helloDataName_getPrefixMinus nb r v,
   helloInterestName_get_neg_one nb req,
   rfl⟩

/-- C10: onContentValidated increments RCV_HELLO_DATA on every validated
response — for an arbitrary response name dn2 the increment is among the
effects — and for a response whose name lacks the INFO marker at index -3
that increment is the only thing that happens: the table is untouched and
no trigger fires. -/
theorem c10_rcv_hello_data_increment_unconditional (cp : ConfParameter)
    (adj : AdjacencyList) (dn dn2 : Name)
    (hm : (Name.get dn (-3)).map Component.toUri ≠ some INFO_COMPONENT) :
    onContentValidated cp adj dn
      = (adj, [.hpIncrementSignal .RCV_HELLO_DATA]) ∧
    Effect.hpIncrementSignal .RCV_HELLO_DATA ∈ (onContentValidated cp adj dn2).2 := by
  constructor
  · unfold onContentValidated
    rw [if_neg hm]
  · unfold onContentValidated
    by_cases h2 : (Name.get dn2 (-3)).map Component.toUri = some INFO_COMPONENT
    · rw [if_pos h2]
      simp
    · rw [if_neg h2]
      simp

end NLSR

namespace NLSR
namespace HelloProtocol

/-- The probes a periodic pass emits are exactly one per adjacency with a
nonzero face id, in table order, each addressed by its hello interest
name. -/
theorem probeTargets_sendScheduledInterest (cp : ConfParameter)
    (adj : AdjacencyList) :
    probeTargets (sendScheduledInterest cp adj)
      = (adj.filter fun x => decide (x.faceId ≠ 0)).map
          (fun x => helloInterestName x.name cp.routerPrefixName) := by
  induction adj with
  | nil => rfl
  | cons a l ih =>
    unfold sendScheduledInterest probeTargets at ih ⊢
    rw [List.flatMap_cons, List.filter_cons]
    by_cases hf : a.faceId ≠ 0
    · rw [if_pos hf, if_pos (by simpa using hf)]
      simp only [List.append_assoc, List.filterMap_append] at ih ⊢
      rw [List.map_cons]
      refine congrArg₂ List.cons rfl ?_
      simpa using ih
    · rw [if_neg hf, if_neg (by simpa using hf)]
      simpa using ih

/-- Building hello interest names towards a fixed router identity is
injective in the neighbor identity. -/
theorem helloInterestName_injective (r : PlainName) :
    Function.Injective (fun nm : Name => helloInterestName nm r) := by
  intro x y hxy
  simp only [helloInterestName] at hxy
  exact List.append_cancel_right hxy

end HelloProtocol
end NLSR

namespace NLSR
namespace HelloProtocol

/-- If no adjacency in the table is named t, the pass emits no probe whose
target is t's hello interest name. -/
theorem count_probeTargets_zero (cp : ConfParameter) (l : AdjacencyList)
    (t : Name) (h : ∀ x ∈ l, x.name ≠ t) :
    ((l.filter fun x => decide (x.faceId ≠ 0)).map
        (fun x => helloInterestName x.name cp.routerPrefixName)).count
      (helloInterestName t cp.routerPrefixName) = 0 := by
  induction l with
  | nil => rfl
  | cons x xs ih =>
    have hx : x.name ≠ t := h x (by simp)
    have hxs : ∀ y ∈ xs, y.name ≠ t := fun y hy => h y (by simp [hy])
    rw [List.filter_cons]
    by_cases hf : decide (x.faceId ≠ 0) = true
    · rw [if_pos hf, List.map_cons,
        List.count_cons_of_ne
          (fun he => hx (helloInterestName_injective cp.routerPrefixName he.symm))]
      exact ih hxs
    · rw [if_neg hf]
      exact ih hxs

/-- Each adjacency of a table with unique identities is the target of
exactly one emitted probe when its face id is nonzero, of none when it is
zero. -/
theorem count_probeTargets (cp : ConfParameter) (l : AdjacencyList)
    (a : Adjacent) (hnodup : (l.map Adjacent.name).Nodup) (ha : a ∈ l) :
    ((l.filter fun x => decide (x.faceId ≠ 0)).map
        (fun x => helloInterestName x.name cp.routerPrefixName)).count
      (helloInterestName a.name cp.routerPrefixName)
      = if a.faceId ≠ 0 then 1 else 0 := by
  induction l with
  | nil => exact absurd ha (by simp)
  | cons x xs ih =>
    rw [List.map_cons] at hnodup
    rcases List.mem_cons.mp ha with hax | hax
    · subst hax
      have hxs : ∀ y ∈ xs, y.name ≠ a.name := by
        intro y hy he
        exact (List.nodup_cons.mp hnodup).1 (he ▸ List.mem_map_of_mem Adjacent.name hy)
      rw [List.filter_cons]
      by_cases hf : a.faceId ≠ 0
      · rw [if_pos (by simpa using hf), List.map_cons, List.count_cons_self,
          count_probeTargets_zero cp xs a.name hxs, if_pos hf]
      · rw [if_neg (by simpa using hf),
          count_probeTargets_zero cp xs a.name hxs, if_neg hf]
    · have hxa : x.name ≠ a.name := by
        intro he
        exact (List.nodup_cons.mp hnodup).1 (he ▸ List.mem_map_of_mem Adjacent.name hax)
      have ihr := ih (List.nodup_cons.mp hnodup).2 hax
      rw [List.filter_cons]
      by_cases hf : decide (x.faceId ≠ 0) = true
      · rw [if_pos hf, List.map_cons,
          List.count_cons_of_ne
            (fun he => hxa (helloInterestName_injective cp.routerPrefixName he.symm))]
        exact ihr
      · rw [if_neg hf]
        exact ihr

end HelloProtocol

open HelloProtocol

/-- C5: on a periodic probing pass over a table with unique identities,
every adjacency with a nonzero face id is sent exactly one probe (counted
by its hello interest name among the pass's expressed interests), every
adjacency with face id 0 is sent none, and the effect list ends by
rescheduling the next pass after the configured probe interval. -/
theorem c5_periodic_pass_probes_each_faced_neighbor_once (cp : ConfParameter)
    (adj : AdjacencyList) (a : Adjacent)
    (hnodup : (adj.map Adjacent.name).Nodup)
    (ha : a ∈ adj) :
    (probeTargets (sendScheduledInterest cp adj)).count
        (helloInterestName a.name cp.routerPrefixName)
      = (if a.faceId ≠ 0 then 1 else 0) ∧
    (sendScheduledInterest cp adj).getLast?
      = some (.scheduledInterestAfter cp.infoInterestInterval) := by
  constructor
  · rw [probeTargets_sendScheduledInterest]
    exact count_probeTargets cp adj a hnodup ha
  · unfold sendScheduledInterest scheduleInterest
    rw [List.getLast?_concat]

end NLSR

namespace NLSR
open HelloProtocol

/-- Witness for C1 at a concrete input: retry limit 3, neighbor ACTIVE with
count 2, two further timeouts after the transition. -/
theorem c1_witness :
    adjActive.findAdjacent nbEx = some adjacentActive ∧
    adjacentActive.status = .STATUS_ACTIVE ∧
    adjacentActive.timedOutInterestCount + 1 = cpEx.interestRetryNumber ∧
    ((processInterestTimedOut cpEx adjActive
        (helloInterestName nbEx cpEx.routerPrefixName)).2
      = [.scheduledAdjLsaBuild] ∧
    (processInterestTimedOut cpEx adjActive
        (helloInterestName nbEx cpEx.routerPrefixName)).1.getStatusOfNeighbor nbEx
      = .STATUS_INACTIVE ∧
    (timeoutEvents cpEx
        (processInterestTimedOut cpEx adjActive
          (helloInterestName nbEx cpEx.routerPrefixName)).1
        (helloInterestName nbEx cpEx.routerPrefixName) 2).2 = [] ∧
    (timeoutEvents cpEx
        (processInterestTimedOut cpEx adjActive
          (helloInterestName nbEx cpEx.routerPrefixName)).1
        (helloInterestName nbEx cpEx.routerPrefixName) 2).1.getStatusOfNeighbor nbEx
      = .STATUS_INACTIVE) :=
  ⟨rfl, rfl, rfl,
   c1_active_reaching_limit_transitions_once cpEx adjActive nbEx
     adjacentActive 2 rfl rfl rfl⟩

/-- Witness for C2 at a concrete input: a versioned response name for a
previously INACTIVE neighbor with count 4. -/
theorem c2_witness :
    (Name.get dnEx (-3)).map Component.toUri = some INFO_COMPONENT ∧
    adjInactive.findAdjacent (dnEx.getPrefixMinus 4) = some adjacentInactive ∧
    ((onContentValidated cpEx adjInactive dnEx).1.getStatusOfNeighbor
        (dnEx.getPrefixMinus 4) = .STATUS_ACTIVE ∧
    (onContentValidated cpEx adjInactive dnEx).1.getTimedOutInterestCount
        (dnEx.getPrefixMinus 4) = 0 ∧
    (onContentValidated cpEx (onContentValidated cpEx adjInactive dnEx).1
        dnEx).1.getStatusOfNeighbor (dnEx.getPrefixMinus 4) = .STATUS_ACTIVE ∧
    (onContentValidated cpEx (onContentValidated cpEx adjInactive dnEx).1
        dnEx).1.getTimedOutInterestCount (dnEx.getPrefixMinus 4) = 0) :=
  ⟨rfl, rfl,
   c2_validated_response_sets_active_resets_count cpEx adjInactive dnEx
     adjacentInactive rfl rfl⟩

/-- Witness for C3 at a concrete input: hyperbolic mode on, neighbor
previously INACTIVE. -/
theorem c3_witness :
    (Name.get dnEx (-3)).map Component.toUri = some INFO_COMPONENT ∧
    adjInactive.findAdjacent (dnEx.getPrefixMinus 4) = some adjacentInactive ∧
    (((onContentValidated cpHyp adjInactive dnEx).2
      = (if adjacentInactive.status = .STATUS_INACTIVE then
           if cpHyp.hyperbolicState = .HYPERBOLIC_STATE_ON then
             [Effect.scheduledRoutingTableCalculation]
           else
             [Effect.scheduledAdjLsaBuild]
         else []) ++ [Effect.hpIncrementSignal .RCV_HELLO_DATA]) ∧
    (adjacentInactive.status = .STATUS_INACTIVE ↔
      adjInactive.getStatusOfNeighbor (dnEx.getPrefixMinus 4)
        ≠ (onContentValidated cpHyp adjInactive dnEx).1.getStatusOfNeighbor
            (dnEx.getPrefixMinus 4))) :=
  ⟨rfl, rfl,
   c3_trigger_fires_iff_status_changed cpHyp adjInactive dnEx
     adjacentInactive rfl rfl⟩

/-- Witness for C4's amended theorem at a concrete input: a one-component
name, whose index -2 does not exist. -/
theorem c4_witness :
    (Name.get malformedNameEx (-2)).map Component.toUri ≠ some INFO_COMPONENT ∧
    (processInterest cpEx adjActive malformedNameEx 0
      = .ok (adjActive, [.hpIncrementSignal .RCV_HELLO_INTEREST]) ∧
    processInterestTimedOut cpEx adjActive malformedNameEx = (adjActive, [])) :=
  ⟨by decide,
   c4_marker_mismatch_silently_ignored cpEx adjActive malformedNameEx 0
     (by decide)⟩

/-- Counterexample for C4 as stated: a probe name whose INFO marker matches
but whose last component does not wire-decode as a name is malformed, yet
processInterest propagates a decode error instead of silently ignoring
it. -/
theorem c4_counterexample :
    processInterest cpEx adjActive badProbeName 0
      = .error .tlvError := rfl

/-- Witness for C5 at a concrete input: one adjacency with a face, one
without. -/
theorem c5_witness :
    (adjTwo.map Adjacent.name).Nodup ∧
    adjacentActive ∈ adjTwo ∧
    ((probeTargets (sendScheduledInterest cpEx adjTwo)).count
        (helloInterestName adjacentActive.name cpEx.routerPrefixName)
      = (if adjacentActive.faceId ≠ 0 then 1 else 0) ∧
    (sendScheduledInterest cpEx adjTwo).getLast?
      = some (.scheduledInterestAfter cpEx.infoInterestInterval)) :=
  ⟨by decide, by decide,
   c5_periodic_pass_probes_each_faced_neighbor_once cpEx adjTwo
     adjacentActive (by decide) (by decide)⟩

/-- Witness for C6 at a concrete input: a probe from a configured,
currently INACTIVE requester with a face. -/
theorem c6_witness :
    adjReq.findAdjacent (Name.ofPlain reqEx) = some adjacentReq ∧
    processInterest cpEx adjReq
        (pfxEx ++ [Component.str INFO_COMPONENT, Component.encodedName reqEx]) 42
      = .ok (adjReq,
          [.hpIncrementSignal .RCV_HELLO_INTEREST,
           .sentData ((pfxEx ++ [Component.str INFO_COMPONENT,
              Component.encodedName reqEx]) ++ [Component.version 42]),
           .hpIncrementSignal .SENT_HELLO_DATA] ++
          (if adjacentReq.status = .STATUS_INACTIVE ∧ adjacentReq.faceId ≠ 0 then
             [.sentInterest
                (helloInterestName (Name.ofPlain reqEx) cpEx.routerPrefixName)
                cpEx.interestResendTime,
              .hpIncrementSignal .SENT_HELLO_INTEREST]
           else [])) :=
  ⟨rfl,
   c6_incoming_probe_response_and_reciprocal_probe cpEx adjReq pfxEx reqEx 42
     adjacentReq rfl⟩

/-- Witness for C7 at a concrete input: a probe from an unconfigured
identity. -/
theorem c7_witness :
    adjActive.isNeighbor (Name.ofPlain reqUnknown) = false ∧
    processInterest cpEx adjActive
        (pfxEx ++ [Component.str INFO_COMPONENT, Component.encodedName reqUnknown]) 0
      = .ok (adjActive, [.hpIncrementSignal .RCV_HELLO_INTEREST]) :=
  ⟨rfl,
   c7_unknown_requester_ignored_after_counter cpEx adjActive pfxEx
     reqUnknown 0 rfl⟩

/-- Witness for C9 at a concrete input: retry limit 0, neighbor ACTIVE with
count 2. -/
theorem c9_witness :
    cpZero.interestRetryNumber = 0 ∧
    adjActive.findAdjacent nbEx = some adjacentActive ∧
    (processInterestTimedOut cpZero adjActive
        (helloInterestName nbEx cpZero.routerPrefixName)
      = (adjActive.incrementTimedOutInterestCount nbEx, []) ∧
    (adjActive.incrementTimedOutInterestCount nbEx).getTimedOutInterestCount nbEx
      = adjacentActive.timedOutInterestCount + 1 ∧
    1 ≤ (adjActive.incrementTimedOutInterestCount nbEx).getTimedOutInterestCount nbEx ∧
    (adjActive.incrementTimedOutInterestCount nbEx).getStatusOfNeighbor nbEx
      = adjacentActive.status) :=
  ⟨rfl, rfl,
   c9_retry_limit_zero_never_declares_down cpZero adjActive nbEx
     adjacentActive rfl rfl⟩

/-- Witness for C10 at a concrete input: a one-component response name
(no marker at index -3) and, for the unconditional part, the well-formed
response name dnEx. -/
theorem c10_witness :
    (Name.get shortDataName (-3)).map Component.toUri ≠ some INFO_COMPONENT ∧
    (onContentValidated cpEx adjActive shortDataName
      = (adjActive, [.hpIncrementSignal .RCV_HELLO_DATA]) ∧
    Effect.hpIncrementSignal .RCV_HELLO_DATA
      ∈ (onContentValidated cpEx adjActive dnEx).2) :=
  ⟨by decide,
   c10_rcv_hello_data_increment_unconditional cpEx adjActive shortDataName
     dnEx (by decide)⟩

end NLSR
